import Mathlib

/-!
Shallow embedding of src/jupyterdrive/gdrive/gapi_utils.js.

The file models the data flow of the module: the JS values passed to the
callback of a Google API request (truthiness and the optional error
resource), the Error objects the module builds, the promise states of the
asynchronous steps, and the observable events (script fetch, module loads,
authorization attempts, dialog display) that the functions emit.  Each
JavaScript function is translated into a Lean definition over these types;
external collaborators (the vendor SDK callbacks, the user at the dialog,
the network) are abstracted into an environment record of oracles.
-/

namespace GapiUtils

/-- Error resource carried in the `error` field of a Google API result
(see the handle-errors reference cited in the source).  Only the
`message` field is read by the module. -/
structure ErrorResource where
  message : String
  deriving DecidableEq, Repr

/-- Value passed by the vendor SDK to a request callback, as observed by
`wrap_result`: either a falsy JS value, or a truthy object whose `error`
field is truthy (`some e`) or absent/falsy (`none`). -/
inductive GapiResult where
  | falsy
  | obj (error : Option ErrorResource)
  deriving DecidableEq, Repr

/-- JS truthiness of the result value (`!result` in the source negated). -/
def GapiResult.truthy : GapiResult → Bool
  | .falsy => false
  | .obj _ => true

/-- Truthiness of the `error` field of the result. -/
def GapiResult.has_error : GapiResult → Bool
  | .obj (some _) => true
  | _ => false

/-- JS `Error` object as built by the module: `name` (defaults to
"Error" when not assigned), `message`, and the `gapi_error` expando
field set in the error-resource branch of `wrap_result`. -/
structure JSError where
  name : String
  message : String
  gapi_error : Option ErrorResource
  deriving DecidableEq, Repr

/-- Translation of `wrap_result` (gapi_utils.js lines 49-64): a falsy
result rejects with a fresh Error named GapiError; a truthy result whose
`error` field is truthy rejects with an Error carrying the resource
message and the resource itself in `gapi_error`; any other result
resolves with the result unchanged. -/
def wrap_result : GapiResult → Except JSError GapiResult
  | .falsy =>
      Except.error ⟨"GapiError", "Unknown error during Google API call", none⟩
  | .obj (some e) => Except.error ⟨"Error", e.message, some e⟩
  | .obj none => Except.ok (.obj none)

/-- Translation of `execute` (gapi_utils.js lines 83-89): the promise it
returns resolves with `wrap_result` of the value the vendor request passes
to the callback, so its settled state is exactly that of `wrap_result`
applied to the callback result. -/
def execute (callback_result : GapiResult) : Except JSError GapiResult :=
  wrap_result callback_result

/-- OAuth scope constant (gapi_utils.js line 16). -/
def FILES_OAUTH_SCOPE : String := "https://www.googleapis.com/auth/drive.file"

/-- OAuth scope constant (gapi_utils.js line 22). -/
def METADATA_OAUTH_SCOPE : String :=
  "https://www.googleapis.com/auth/drive.readonly.metadata"

/-- Client id literal passed to gapi.auth.authorize (line 151). -/
def CLIENT_ID : String :=
  "911569945122-tlvi6ucbj137ifhitpqpdikf3qo1mh9d.apps.googleusercontent.com"

/-- Argument object of a gapi.auth.authorize call (lines 150-153). -/
structure AuthRequest where
  client_id : String
  scope : List String
  immediate : Bool
  deriving DecidableEq, Repr

/-- Observable events emitted by the module: the script fetch issued by
load_gapi_1, each poll evaluation, the vendor module loads of load_gapi_2,
each gapi.auth.authorize invocation, and the display of the consent
dialog. -/
inductive Event where
  | getScript (url : String)
  | pollCheck (k : Nat)
  | gapiLoad (modules : String)
  | clientLoad (api : String) (version : String)
  | authAttempt (req : AuthRequest)
  | dialogShown
  deriving DecidableEq, Repr

/-- Reason a promise of this module is rejected: an Error object built by
the module, the wrapped ajax failure from the script fetch (payload kept
abstract as the failure text, since utils.wrap_ajax_error lives in the
host framework), or the click event of the cancel button passed straight
to reject (line 171). -/
inductive Rejection where
  | err (e : JSError)
  | ajaxError (reason : String)
  | cancelClick
  deriving DecidableEq, Repr

/-- State of a promise: still pending, resolved with a value, or rejected. -/
inductive PState (α : Type) where
  | pending
  | resolved (a : α)
  | rejected (e : Rejection)
  deriving DecidableEq, Repr

/-- Semantics of promise.then(f): on resolution the continuation runs and
its events extend the trace; a pending or rejected state propagates
unchanged and the continuation never runs. -/
def promise_then {α β : Type} (p : List Event × PState α)
    (f : α → List Event × PState β) : List Event × PState β :=
  match p with
  | (tr, .resolved a) =>
      let q := f a
      (tr ++ q.1, q.2)
  | (tr, .pending) => (tr, .pending)
  | (tr, .rejected e) => (tr, .rejected e)

/-- Environment of external oracles: whether the script fetch succeeds and
its failure text otherwise, the truthiness of window.gapi and gapi.client
at each poll tick, whether the gapi.load and gapi.client.load callbacks
fire, the truthiness of the value the client.load callback receives, the
result the vendor passes to the authorize callback as a function of the
immediate flag, and the button the user clicks in the dialog. -/
structure Env where
  script_ok : Bool
  script_err : String
  window_gapi : Nat → Bool
  gapi_client : Nat → Bool
  gapi_load_fired : Bool
  client_load_fired : Bool
  client_load_value : Bool
  auth_result : Bool → GapiResult
  user_clicks_ok : Bool

/-- Elapsed time of the k-th poll evaluation: the polling function runs
immediately when poll is called and reschedules itself every interval
milliseconds (lines 110, 113). -/
def poll_check_time (interval : Nat) (k : Nat) : Nat := k * interval

/-- Translation of `poll` (gapi_utils.js lines 104-115), observed up to
tick `ticks`: the polling function checks the condition at tick 0 and,
while it returns false, again at each following tick; the promise resolves
(with undefined, modelled as the unit value) at the first true evaluation
and reject is never called.  The interval argument only paces the ticks
(see poll_check_time) and is unused here, as in the recursion itself. -/
def poll_run (condition : Nat → Bool) (interval : Nat) :
    Nat → List Event × PState Unit
  | 0 =>
      ([Event.pollCheck 0],
        if condition 0 then PState.resolved () else PState.pending)
  | n + 1 =>
      match poll_run condition interval n with
      | (tr, .pending) =>
          (tr ++ [Event.pollCheck (n + 1)],
            if condition (n + 1) then PState.resolved () else PState.pending)
      | done => done

/-- Condition polled by load_gapi_1 (line 126): truthiness of
window.gapi and gapi.client at tick k. -/
def gapi_available (env : Env) (k : Nat) : Bool :=
  env.window_gapi k && env.gapi_client k

/-- Translation of `load_gapi_1` (gapi_utils.js lines 122-128), observed
up to tick `ticks`: fetch the client library script; on success poll
every 100 ms until window.gapi and gapi.client exist; on fetch failure
reject with the wrapped ajax error. -/
def load_gapi_1 (env : Env) (ticks : Nat) : List Event × PState Unit :=
  let fetch := [Event.getScript "https://apis.google.com/js/client.js"]
  if env.script_ok then
    let p := poll_run (gapi_available env) 100 ticks
    (fetch ++ p.1, p.2)
  else
    (fetch, PState.rejected (Rejection.ajaxError env.script_err))

/-- Translation of `load_gapi_2` (gapi_utils.js lines 134-140): call
gapi.load with the fixed module string; once its callback fires, call
gapi.client.load for the drive v2 API with resolve as callback; the
promise resolves, with the value handed to that callback, only once the
second callback fires.  The argument d of the source function is unused
there and omitted here. -/
def load_gapi_2 (env : Env) : List Event × PState Bool :=
  let tr0 := [Event.gapiLoad "auth:client,drive-realtime,drive-share"]
  if env.gapi_load_fired then
    let tr1 := tr0 ++ [Event.clientLoad "drive" "v2"]
    if env.client_load_fired then (tr1, PState.resolved env.client_load_value)
    else (tr1, PState.pending)
  else (tr0, PState.pending)

/-- Request object built by authorize_internal (lines 150-153): the fixed
client id, the two scopes, and immediate set to the negation of the
opt_withPopup flag in scope. -/
def authorize_request (opt_withPopup : Bool) : AuthRequest :=
  ⟨CLIENT_ID, [FILES_OAUTH_SCOPE, METADATA_OAUTH_SCOPE], !opt_withPopup⟩

/-- Translation of `authorize_internal` (gapi_utils.js lines 148-158):
invoke gapi.auth.authorize with the request and resolve the promise with
wrap_result of the callback result, so the promise settles like
wrap_result applied to the vendor result for that immediate flag. -/
def authorize_internal (env : Env) (opt_withPopup : Bool) :
    List Event × PState GapiResult :=
  let req := authorize_request opt_withPopup
  ([Event.authAttempt req],
    match wrap_result (env.auth_result (!opt_withPopup)) with
    | Except.ok r => PState.resolved r
    | Except.error e => PState.rejected (Rejection.err e))

/-- Translation of the opt_withPopup branch of `authorize` (lines
160-175): show the confirmation dialog; on ok resolve with the promise of
authorize_internal (whose state is then adopted); on cancel call reject
with the click event. -/
def authorize_popup (env : Env) : List Event × PState GapiResult :=
  if env.user_clicks_ok then
    let p := authorize_internal env true
    (Event.dialogShown :: p.1, p.2)
  else
    ([Event.dialogShown], PState.rejected Rejection.cancelClick)

/-- Translation of `authorize` (gapi_utils.js lines 147-183): with the
popup flag take the dialog path; without it run authorize_internal and,
only if that promise rejects, fall back to authorize(true). -/
def authorize (env : Env) (opt_withPopup : Bool) :
    List Event × PState GapiResult :=
  if opt_withPopup then authorize_popup env
  else
    match authorize_internal env false with
    | (tr, .rejected _) =>
        let p := authorize_popup env
        (tr ++ p.1, p.2)
    | other => other

/-- Translation of the module-level binding `gapi_ready` (line 188):
load_gapi_1().then(load_gapi_2).then(authorize), observed up to tick
`ticks`.  load_gapi_2 ignores the value of the first step; authorize
receives the resolution value of load_gapi_2 as its opt_withPopup flag. -/
def gapi_ready (env : Env) (ticks : Nat) : List Event × PState GapiResult :=
  promise_then
    (promise_then (load_gapi_1 env ticks) (fun _ => load_gapi_2 env))
    (fun d => authorize env d)

/-- Count of authorization attempts in a trace. -/
def authCount (tr : List Event) : Nat :=
  (tr.filter (fun ev =>
    match ev with
    | Event.authAttempt _ => true
    | _ => false)).length

/-- HTTP request as assembled for the ajax helper: method, url and the
header list from the settings object. -/
structure AjaxRequest where
  method : String
  url : String
  headers : List (String × String)
  deriving DecidableEq, Repr

/-- Modelled from the spec: utils.promising_ajax lives in the host
notebook framework, outside this repository; per the spec it issues an
HTTP GET to the url, returning a value (the fetched contents) on success
or failing with a network/auth error, surfaced as an Error rejection.
The network is abstracted as an oracle mapping the request to its
outcome; the issued request is returned alongside the settled state. -/
def promising_ajax (net : AjaxRequest → Except String String) (url : String)
    (headers : List (String × String)) : AjaxRequest × Except JSError String :=
  let req : AjaxRequest := ⟨"GET", url, headers⟩
  (req,
    match net req with
    | Except.ok body => Except.ok body
    | Except.error msg => Except.error ⟨"Error", msg, none⟩)

/-- Translation of `download` (gapi_utils.js lines 35-40): read the
current access token, build the settings object with the single
Authorization header, and delegate to promising_ajax.  The token read
from gapi.auth.getToken() is passed in as `access_token`. -/
def download (net : AjaxRequest → Except String String)
    (access_token : String) (url : String) :
    AjaxRequest × Except JSError String :=
  promising_ajax net url [("Authorization", "Bearer " ++ access_token)]

/-- Environment in which every oracle succeeds at once and the vendor
hands back an error-free result. -/
def env_ok : Env :=
  ⟨true, "", fun _ => true, fun _ => true, true, true, false,
    fun _ => GapiResult.obj none, true⟩

/-- Environment in which every authorization attempt yields a falsy
result, so wrap_result rejects it. -/
def env_authfail : Env :=
  ⟨true, "", fun _ => true, fun _ => true, true, true, false,
    fun _ => GapiResult.falsy, true⟩

/-- Environment in which the user dismisses the consent dialog. -/
def env_cancel : Env :=
  ⟨true, "", fun _ => true, fun _ => true, true, true, false,
    fun _ => GapiResult.obj none, false⟩

/-- Network oracle that answers every request with fixed contents. -/
def net_ok : AjaxRequest → Except String String :=
  fun _ => Except.ok "contents"

/-! Helper lemmas. -/

/-- Unfolding equation for poll_run at a successor tick. -/
theorem poll_run_succ (c : Nat → Bool) (i n : Nat) :
    poll_run c i (n + 1) =
      match poll_run c i n with
      | (tr, .pending) =>
          (tr ++ [Event.pollCheck (n + 1)],
            if c (n + 1) then PState.resolved () else PState.pending)
      | done => done := rfl

/-- The poll promise is never rejected: reject is never called. -/
theorem poll_run_not_rejected (c : Nat → Bool) (i : Nat) :
    ∀ n e, (poll_run c i n).2 ≠ PState.rejected e := by
  intro n
  induction n with
  | zero =>
      intro e
      by_cases h : c 0 = true <;> simp [poll_run, h]
  | succ n ih =>
      intro e
      rw [poll_run_succ]
      rcases hp : poll_run c i n with ⟨tr, st⟩
      cases st with
      | pending => by_cases h : c (n + 1) = true <;> simp [h]
      | resolved a => simp
      | rejected e2 =>
          have := ih e2
          rw [hp] at this
          simp at this

/-- The poll promise is resolved by tick n exactly when some evaluation
of the condition at a tick up to n returned true. -/
theorem poll_run_resolved_iff (c : Nat → Bool) (i : Nat) :
    ∀ n, (poll_run c i n).2 = PState.resolved () ↔
      ∃ k, k ≤ n ∧ c k = true := by
  intro n
  induction n with
  | zero =>
      by_cases h : c 0 = true
      · simp only [poll_run, h, if_pos]
        constructor
        · intro _; exact ⟨0, Nat.le_refl 0, h⟩
        · intro _; trivial
      · simp only [poll_run, if_neg h]
        constructor
        · intro hcontra; simp at hcontra
        · rintro ⟨k, hk, hck⟩
          have : k = 0 := Nat.le_zero.mp hk
          rw [this] at hck
          exact absurd hck h
  | succ n ih =>
      rw [poll_run_succ]
      rcases hp : poll_run c i n with ⟨tr, st⟩
      rw [hp] at ih
      cases st with
      | pending =>
          have hno : ¬∃ k, k ≤ n ∧ c k = true := by
            intro hcontra
            have := ih.mpr hcontra
            simp at this
          by_cases h : c (n + 1) = true
          · simp only [h, if_pos]
            constructor
            · intro _; exact ⟨n + 1, Nat.le_refl _, h⟩
            · intro _; trivial
          · simp only [if_neg h]
            constructor
            · intro hcontra; simp at hcontra
            · rintro ⟨k, hk, hck⟩
              rcases Nat.lt_succ_iff_lt_or_eq.mp (Nat.lt_succ_of_le hk) with hlt | heq
              · exact (hno ⟨k, Nat.lt_succ_iff.mp hlt, hck⟩).elim
              · rw [heq] at hck; exact absurd hck h
      | resolved a =>
          cases a
          constructor
          · intro _
            rcases ih.mp rfl with ⟨k, hk, hck⟩
            exact ⟨k, Nat.le_succ_of_le hk, hck⟩
          · intro _; trivial
      | rejected e =>
          have := poll_run_not_rejected c i n e
          rw [hp] at this
          simp at this

/-- authCount distributes over trace concatenation. -/
theorem authCount_append (a b : List Event) :
    authCount (a ++ b) = authCount a + authCount b := by
  simp [authCount, List.filter_append]

/-- A poll trace contains no authorization attempt. -/
theorem authCount_poll (c : Nat → Bool) (i : Nat) :
    ∀ n, authCount (poll_run c i n).1 = 0 := by
  intro n
  induction n with
  | zero => rfl
  | succ n ih =>
      rw [poll_run_succ]
      rcases hp : poll_run c i n with ⟨tr, st⟩
      rw [hp] at ih
      cases st with
      | pending =>
          show authCount (tr ++ [Event.pollCheck (n + 1)]) = 0
          rw [authCount_append]
          have htr : authCount tr = 0 := ih
          rw [htr]
          rfl
      | resolved a => exact ih
      | rejected e => exact ih

/-- The trace of load_gapi_1 contains no authorization attempt. -/
theorem authCount_load_gapi_1 (env : Env) (n : Nat) :
    authCount (load_gapi_1 env n).1 = 0 := by
  by_cases h : env.script_ok = true
  · have htr : (load_gapi_1 env n).1
        = [Event.getScript "https://apis.google.com/js/client.js"]
          ++ (poll_run (gapi_available env) 100 n).1 := by
      simp [load_gapi_1, h]
    rw [htr, authCount_append, authCount_poll]
    rfl
  · have htr : (load_gapi_1 env n).1
        = [Event.getScript "https://apis.google.com/js/client.js"] := by
      simp [load_gapi_1, h]
    rw [htr]
    rfl

/-- The trace of load_gapi_2 contains no authorization attempt. -/
theorem authCount_load_gapi_2 (env : Env) :
    authCount (load_gapi_2 env).1 = 0 := by
  by_cases h1 : env.gapi_load_fired = true <;>
    by_cases h2 : env.client_load_fired = true <;>
      simp [load_gapi_2, h1, h2, authCount]

/-! Claim theorems. -/

/-- C1: the promise returned by execute is rejected iff the callback
result is falsy or its error field is truthy; every other result resolves
the promise with the result unchanged. -/
theorem execute_normalizes (r : GapiResult) :
    ((∃ e, execute r = Except.error e) ↔ r.truthy = false ∨ r.has_error = true)
    ∧ (r.truthy = true ∧ r.has_error = false → execute r = Except.ok r) := by
  cases r with
  | falsy =>
      simp [execute, wrap_result, GapiResult.truthy, GapiResult.has_error]
  | obj o =>
      cases o with
      | none =>
          simp [execute, wrap_result, GapiResult.truthy, GapiResult.has_error]
      | some e =>
          simp [execute, wrap_result, GapiResult.truthy, GapiResult.has_error]

/-- Witness for execute_normalizes at a concrete error-free result. -/
theorem execute_normalizes_witness :
    execute (GapiResult.obj none) = Except.ok (GapiResult.obj none) :=
  (execute_normalizes (GapiResult.obj none)).2 (by decide)

/-- C5: the two failure branches of wrap_result are distinguished: a
falsy result rejects with an Error named GapiError carrying the fixed
unknown-error message, and a result with a truthy error field rejects
with an Error whose message is the resource message and whose gapi_error
field is the resource itself. -/
theorem wrap_result_failure_cases :
    wrap_result GapiResult.falsy
      = Except.error ⟨"GapiError", "Unknown error during Google API call", none⟩
    ∧ ∀ e : ErrorResource,
        wrap_result (GapiResult.obj (some e))
          = Except.error ⟨"Error", e.message, some e⟩ :=
  ⟨rfl, fun _ => rfl⟩

/-- C8: poll evaluates the condition at tick 0, before any delay has
elapsed; by tick n it is resolved exactly when some evaluation up to n
returned true, so it never resolves while every evaluation so far was
false, and it is never rejected. -/
theorem poll_spec (condition : Nat → Bool) (interval : Nat) (n : Nat) :
    poll_check_time interval 0 = 0
    ∧ (poll_run condition interval 0).1 = [Event.pollCheck 0]
    ∧ ((poll_run condition interval n).2 = PState.resolved () ↔
        ∃ k, k ≤ n ∧ condition k = true)
    ∧ ∀ e, (poll_run condition interval n).2 ≠ PState.rejected e :=
  ⟨Nat.zero_mul interval, rfl, poll_run_resolved_iff condition interval n,
    poll_run_not_rejected condition interval n⟩

/-- Witness for poll_spec: a condition first true at the third
evaluation resolves the poll at tick 2. -/
theorem poll_spec_witness :
    (poll_run (fun k => k == 2) 100 2).2 = PState.resolved () :=
  (poll_spec (fun k => k == 2) 100 2).2.2.1.mpr ⟨2, Nat.le_refl 2, by decide⟩

/-- C6: load_gapi_1 issues the script fetch first and, when the fetch
succeeds, is resolved by tick n exactly when window.gapi and gapi.client
were both truthy at some tick up to n; while the global is absent it
does not resolve. -/
theorem load_gapi_1_spec (env : Env) (n : Nat) :
    (load_gapi_1 env n).1.head?
        = some (Event.getScript "https://apis.google.com/js/client.js")
    ∧ (env.script_ok = true →
        ((load_gapi_1 env n).2 = PState.resolved () ↔
          ∃ k, k ≤ n ∧ (env.window_gapi k && env.gapi_client k) = true)) := by
  constructor
  · by_cases h : env.script_ok = true <;> simp [load_gapi_1, h]
  · intro h
    have hstate : (load_gapi_1 env n).2
        = (poll_run (gapi_available env) 100 n).2 := by
      simp [load_gapi_1, h]
    rw [hstate, poll_run_resolved_iff]
    exact Iff.rfl

/-- Witness for load_gapi_1_spec: with the script fetched and the global
present from tick 0, the step resolves at tick 0. -/
theorem load_gapi_1_spec_witness :
    (load_gapi_1 env_ok 0).2 = PState.resolved () :=
  ((load_gapi_1_spec env_ok 0).2 rfl).mpr ⟨0, Nat.le_refl 0, rfl⟩

/-- C7: load_gapi_2 calls gapi.load with the fixed module string first,
calls gapi.client.load for the drive v2 API exactly when the gapi.load
callback has fired, and is resolved exactly when both callbacks have
fired — in particular only after the drive client load callback. -/
theorem load_gapi_2_spec (env : Env) :
    (load_gapi_2 env).1.head?
        = some (Event.gapiLoad "auth:client,drive-realtime,drive-share")
    ∧ (Event.clientLoad "drive" "v2" ∈ (load_gapi_2 env).1 ↔
        env.gapi_load_fired = true)
    ∧ ((∃ v, (load_gapi_2 env).2 = PState.resolved v) ↔
        env.gapi_load_fired = true ∧ env.client_load_fired = true) := by
  by_cases h1 : env.gapi_load_fired = true <;>
    by_cases h2 : env.client_load_fired = true <;>
      simp [load_gapi_2, h1, h2]

/-- Witness for load_gapi_2_spec: with both callbacks fired the drive
client load was requested. -/
theorem load_gapi_2_spec_witness :
    Event.clientLoad "drive" "v2" ∈ (load_gapi_2 env_ok).1 :=
  (load_gapi_2_spec env_ok).2.1.mpr rfl

/-- C4: gapi_ready is exactly the chain of load_gapi_1, then load_gapi_2,
then authorize; while the first step is pending, or once it is rejected,
the later steps contribute no events and the state is the first step's;
while the second step is pending the third contributes nothing; and an
authorization attempt appears in the trace only once both earlier steps
have resolved. -/
theorem gapi_ready_spec (env : Env) (n : Nat) :
    gapi_ready env n
      = promise_then
          (promise_then (load_gapi_1 env n) (fun _ => load_gapi_2 env))
          (fun d => authorize env d)
    ∧ ((load_gapi_1 env n).2 = PState.pending →
        gapi_ready env n = ((load_gapi_1 env n).1, PState.pending))
    ∧ (∀ e, (load_gapi_1 env n).2 = PState.rejected e →
        gapi_ready env n = ((load_gapi_1 env n).1, PState.rejected e))
    ∧ ((load_gapi_1 env n).2 = PState.resolved () →
        (load_gapi_2 env).2 = PState.pending →
        gapi_ready env n
          = ((load_gapi_1 env n).1 ++ (load_gapi_2 env).1, PState.pending))
    ∧ (0 < authCount (gapi_ready env n).1 →
        (load_gapi_1 env n).2 = PState.resolved ()
        ∧ ∃ v, (load_gapi_2 env).2 = PState.resolved v) := by
  refine ⟨rfl, ?_, ?_, ?_, ?_⟩
  · intro h1
    rcases hp : load_gapi_1 env n with ⟨t1, s1⟩
    rw [hp] at h1
    simp only at h1
    subst h1
    simp [gapi_ready, promise_then, hp]
  · intro e h1
    rcases hp : load_gapi_1 env n with ⟨t1, s1⟩
    rw [hp] at h1
    simp only at h1
    subst h1
    simp [gapi_ready, promise_then, hp]
  · intro h1 h2
    rcases hp : load_gapi_1 env n with ⟨t1, s1⟩
    rcases hq : load_gapi_2 env with ⟨t2, s2⟩
    rw [hp] at h1
    rw [hq] at h2
    simp only at h1 h2
    subst h1
    subst h2
    simp [gapi_ready, promise_then, hp, hq]
  · intro h
    rcases hp : load_gapi_1 env n with ⟨t1, s1⟩
    have ht1 : authCount t1 = 0 := by
      have := authCount_load_gapi_1 env n
      rw [hp] at this
      exact this
    cases s1 with
    | pending =>
        rw [show gapi_ready env n = (t1, PState.pending) by
          simp [gapi_ready, promise_then, hp]] at h
        rw [ht1] at h
        exact absurd h (by decide)
    | rejected e =>
        rw [show gapi_ready env n = (t1, PState.rejected e) by
          simp [gapi_ready, promise_then, hp]] at h
        rw [ht1] at h
        exact absurd h (by decide)
    | resolved a =>
        cases a
        rcases hq : load_gapi_2 env with ⟨t2, s2⟩
        have ht2 : authCount t2 = 0 := by
          have := authCount_load_gapi_2 env
          rw [hq] at this
          exact this
        cases s2 with
        | pending =>
            rw [show gapi_ready env n = (t1 ++ t2, PState.pending) by
              simp [gapi_ready, promise_then, hp, hq]] at h
            rw [authCount_append, ht1, ht2] at h
            exact absurd h (by decide)
        | rejected e =>
            rw [show gapi_ready env n = (t1 ++ t2, PState.rejected e) by
              simp [gapi_ready, promise_then, hp, hq]] at h
            rw [authCount_append, ht1, ht2] at h
            exact absurd h (by decide)
        | resolved v =>
            exact ⟨rfl, v, rfl⟩

/-- Witness for gapi_ready_spec: in the all-success environment the
authorization attempt in the trace certifies that both load steps
resolved. -/
theorem gapi_ready_spec_witness :
    (load_gapi_1 env_ok 0).2 = PState.resolved ()
    ∧ ∃ v, (load_gapi_2 env_ok).2 = PState.resolved v :=
  (gapi_ready_spec env_ok 0).2.2.2.2 (by decide)

/-- C2: authorize without the popup flag makes the silent immediate-mode
attempt first; when that attempt succeeds no further attempt occurs, and
when it fails the call continues exactly as the popup flow, which itself
makes at most one further attempt, always the non-immediate one, and
whose failure is the final state. -/
theorem authorize_retry (env : Env) :
    (authorize env false).1.head?
        = some (Event.authAttempt (authorize_request false))
    ∧ (authorize_request false).immediate = true
    ∧ (∀ r, wrap_result (env.auth_result true) = Except.ok r →
        authorize env false
          = ([Event.authAttempt (authorize_request false)], PState.resolved r))
    ∧ (∀ e, wrap_result (env.auth_result true) = Except.error e →
        authorize env false
          = (Event.authAttempt (authorize_request false)
              :: (authorize_popup env).1, (authorize_popup env).2))
    ∧ authCount (authorize_popup env).1 ≤ 1
    ∧ (∀ req, Event.authAttempt req ∈ (authorize_popup env).1 →
        req = authorize_request true) := by
  have hok : ∀ r, wrap_result (env.auth_result true) = Except.ok r →
      authorize env false
        = ([Event.authAttempt (authorize_request false)], PState.resolved r) := by
    intro r hw
    simp [authorize, authorize_internal, hw]
  have herr : ∀ e, wrap_result (env.auth_result true) = Except.error e →
      authorize env false
        = (Event.authAttempt (authorize_request false)
            :: (authorize_popup env).1, (authorize_popup env).2) := by
    intro e hw
    simp [authorize, authorize_internal, hw]
  refine ⟨?_, rfl, hok, herr, ?_, ?_⟩
  · rcases hw : wrap_result (env.auth_result true) with e | r
    · rw [herr e hw]
      rfl
    · rw [hok r hw]
      rfl
  · by_cases hclick : env.user_clicks_ok = true <;>
      simp [authorize_popup, hclick, authorize_internal, authCount]
  · intro req hmem
    by_cases hclick : env.user_clicks_ok = true <;>
      simp [authorize_popup, hclick, authorize_internal] at hmem
    exact hmem

/-- Witness for authorize_retry: when the silent attempt yields a falsy
result the call continues as the popup flow. -/
theorem authorize_retry_witness :
    authorize env_authfail false
      = (Event.authAttempt (authorize_request false)
          :: (authorize_popup env_authfail).1,
            (authorize_popup env_authfail).2) :=
  (authorize_retry env_authfail).2.2.2.1
    ⟨"GapiError", "Unknown error during Google API call", none⟩ rfl

/-- C9: in the popup path the authorization call happens only after the
user clicks ok: on cancel the promise is rejected with the click and the
trace holds only the dialog display, on ok the dialog is followed by the
authorize_internal flow, and an attempt in the trace implies the user
clicked ok. -/
theorem authorize_popup_dialog (env : Env) :
    (env.user_clicks_ok = false →
      authorize env true
        = ([Event.dialogShown], PState.rejected Rejection.cancelClick))
    ∧ (env.user_clicks_ok = true →
      authorize env true
        = (Event.dialogShown :: (authorize_internal env true).1,
            (authorize_internal env true).2))
    ∧ (0 < authCount (authorize env true).1 → env.user_clicks_ok = true) := by
  by_cases hclick : env.user_clicks_ok = true
  · refine ⟨fun hfalse => absurd hclick (by rw [hfalse]; decide), ?_, fun _ => hclick⟩
    intro _
    simp [authorize, authorize_popup, hclick]
  · refine ⟨?_, fun htrue => absurd htrue hclick, ?_⟩
    · intro _
      simp [authorize, authorize_popup, hclick]
    · intro h
      rw [show authorize env true = ([Event.dialogShown],
            PState.rejected Rejection.cancelClick) by
          simp [authorize, authorize_popup, hclick]] at h
      exact absurd h (by decide)

/-- Witness for authorize_popup_dialog: when the user cancels, the call
rejects with the click and never reaches gapi.auth.authorize. -/
theorem authorize_popup_dialog_witness :
    authorize env_cancel true
      = ([Event.dialogShown], PState.rejected Rejection.cancelClick) :=
  (authorize_popup_dialog env_cancel).1 rfl

/-- C10: every authorization attempt recorded by authorize carries the
fixed client id, exactly the drive.file and drive.readonly.metadata
scopes, and is the request built for some popup flag, with immediate true
exactly when that flag is not set. -/
theorem authorize_attempt_invariant (env : Env) (p : Bool) (req : AuthRequest) :
    Event.authAttempt req ∈ (authorize env p).1 →
    req.client_id = CLIENT_ID
    ∧ req.scope = [FILES_OAUTH_SCOPE, METADATA_OAUTH_SCOPE]
    ∧ ∃ q : Bool, req = authorize_request q ∧ req.immediate = !q := by
  intro hmem
  have hreq : req = authorize_request false ∨ req = authorize_request true := by
    cases p with
    | true =>
        by_cases hclick : env.user_clicks_ok = true <;>
          simp [authorize, authorize_popup, authorize_internal, hclick] at hmem
        exact Or.inr hmem
    | false =>
        rcases hw : wrap_result (env.auth_result true) with e | r
        · by_cases hclick : env.user_clicks_ok = true <;>
            simp [authorize, authorize_popup, authorize_internal, hw, hclick]
              at hmem
          · rcases hmem with h | h
            · exact Or.inl h
            · exact Or.inr h
          · exact Or.inl hmem
        · simp [authorize, authorize_internal, hw] at hmem
          exact Or.inl hmem
  rcases hreq with h | h <;> subst h
  · exact ⟨rfl, rfl, false, rfl, rfl⟩
  · exact ⟨rfl, rfl, true, rfl, rfl⟩

/-- Witness for authorize_attempt_invariant at the popup attempt of the
all-success environment. -/
theorem authorize_attempt_invariant_witness :
    (authorize_request true).client_id = CLIENT_ID
    ∧ (authorize_request true).scope
        = [FILES_OAUTH_SCOPE, METADATA_OAUTH_SCOPE]
    ∧ ∃ q : Bool, authorize_request true = authorize_request q
        ∧ (authorize_request true).immediate = !q :=
  authorize_attempt_invariant env_ok true (authorize_request true)
    (by simp [authorize, authorize_popup, authorize_internal, env_ok])

/-- C3: download issues the single GET request to the given url whose
only header is the Authorization Bearer header built from the current
access token; it resolves with the fetched contents when the network
succeeds and rejects with an Error when it fails. -/
theorem download_spec (net : AjaxRequest → Except String String)
    (token url : String) :
    (download net token url).1
        = ⟨"GET", url, [("Authorization", "Bearer " ++ token)]⟩
    ∧ (∀ body, net (download net token url).1 = Except.ok body →
        (download net token url).2 = Except.ok body)
    ∧ (∀ msg, net (download net token url).1 = Except.error msg →
        (download net token url).2 = Except.error ⟨"Error", msg, none⟩) := by
  refine ⟨rfl, ?_, ?_⟩
  · intro body h
    have h2 : net (⟨"GET", url, [("Authorization", "Bearer " ++ token)]⟩
        : AjaxRequest) = Except.ok body := h
    show (match net (⟨"GET", url, [("Authorization", "Bearer " ++ token)]⟩
        : AjaxRequest) with
      | Except.ok body => Except.ok body
      | Except.error msg =>
          Except.error (⟨"Error", msg, none⟩ : JSError)) = Except.ok body
    rw [h2]
  · intro msg h
    have h2 : net (⟨"GET", url, [("Authorization", "Bearer " ++ token)]⟩
        : AjaxRequest) = Except.error msg := h
    show (match net (⟨"GET", url, [("Authorization", "Bearer " ++ token)]⟩
        : AjaxRequest) with
      | Except.ok body => Except.ok body
      | Except.error msg =>
          Except.error (⟨"Error", msg, none⟩ : JSError))
        = Except.error ⟨"Error", msg, none⟩
    rw [h2]

/-- Witness for download_spec on a network oracle that succeeds. -/
theorem download_spec_witness :
    (download net_ok "tok" "https://files.example/a.ipynb").2
      = Except.ok "contents" :=
  (download_spec net_ok "tok" "https://files.example/a.ipynb").2.1
    "contents" rfl

end GapiUtils
